import Mathlib

/-!
Shallow embedding of the lcd-data-logger firmware core (ESP32 data logger):
the UART channel producer (`uart_manager.c`), the ADC sampler and its
exponential moving-average filter (`adc_manager.c`), the storage writer and
its file state machine (`storage_manager.c` / `storage_manager.h`), the
coordinator (`data_logger.c`), and the configuration defaults (`config.c`,
`config.h`).

Modelling conventions:
  - C machine integers are embedded as `Nat` (all the counters involved are
    unsigned and no claim depends on wrap-around); `float` fields are embedded
    as `ℚ` (every concrete float computation the claims mention — alpha = 0.5,
    inputs 2.0 and 4.0 — is exact in binary floating point, so the rational
    model agrees with the float evaluation on those values).
  - FreeRTOS ring buffers and queues are embedded as bounded FIFO lists
    (front = oldest element), with an explicit capacity parameter; a push onto
    a full buffer fails exactly as `xRingbufferSend` / `xQueueSend` with an
    elapsed timeout does.
  - `esp_err_t` is embedded as an enumeration of the error codes the embedded
    functions actually return.
  - C pointers that are only tested against NULL are embedded as `Option` /
    `Bool` validity flags.
  - Wall-clock reads (`esp_timer_get_time()`) are passed in as explicit `now`
    parameters.
-/

namespace DataLogger

/-- `esp_err_t` return codes used by the embedded functions. -/
inductive esp_err_t where
  | ESP_OK
  | ESP_FAIL
  | ESP_ERR_INVALID_ARG
  | ESP_ERR_INVALID_STATE
  | ESP_ERR_TIMEOUT
  | ESP_ERR_NO_MEM
deriving Repr, DecidableEq

/-! ## Configuration (`config.h`, `config.c`) -/

/-- `#define CONFIG_UART_PORT_COUNT 2  // ESP32-C6 has only UART0 and UART1` -/
def CONFIG_UART_PORT_COUNT : Nat := 2

/-- `#define CONFIG_ADC_CHANNEL_COUNT 2` -/
def CONFIG_ADC_CHANNEL_COUNT : Nat := 2

/-- `#define CONFIG_UART1_DEFAULT_BAUD 9600` -/
def CONFIG_UART1_DEFAULT_BAUD : Nat := 9600

/-- `#define CONFIG_UART2_DEFAULT_BAUD 115200` -/
def CONFIG_UART2_DEFAULT_BAUD : Nat := 115200

/-- `#define CONFIG_UART3_DEFAULT_BAUD 38400` -/
def CONFIG_UART3_DEFAULT_BAUD : Nat := 38400

/-- `#define CONFIG_ADC_DEFAULT_SAMPLE_RATE 100` -/
def CONFIG_ADC_DEFAULT_SAMPLE_RATE : Nat := 100

/-- `#define CONFIG_MAX_FILE_SIZE_MB 100` -/
def CONFIG_MAX_FILE_SIZE_MB : Nat := 100

/-- One entry of `system_config_t.uart_config` (config.h). -/
structure uart_port_config_t where
  enabled : Bool
  baud_rate : Nat
  data_bits : Nat
  stop_bits : Nat
  parity : Nat
  flow_control : Bool
deriving Repr, DecidableEq

/-- One entry of `system_config_t.adc_config` (config.h). `voltage_scale` and
`filter_alpha` are `float` in the source, embedded as `ℚ`. -/
structure adc_channel_config_t where
  enabled : Bool
  sample_rate_hz : Nat
  voltage_scale : ℚ
  filter_alpha : ℚ
  attenuation : Nat
deriving Repr, DecidableEq

/-- `system_config_t.storage_config` (config.h). -/
structure storage_config_t where
  auto_start : Bool
  max_file_size_mb : Nat
  buffer_flush_interval_ms : Nat
  compress_files : Bool
  retention_days : Nat
deriving Repr, DecidableEq

/-- `system_config_t` (config.h), restricted to the sections the embedded
functions read or write: device identity, the UART and ADC arrays and the
storage section.  The wifi/display/network/system sections are scalar
settings written once by `config_load_defaults` and never read by any
function in this development; they are carried as an opaque marker so the
struct stays a single value. -/
structure system_config_t where
  device_name : String
  device_id : Nat
  uart_config : List uart_port_config_t
  adc_config : List adc_channel_config_t
  storage_config : storage_config_t
deriving Repr, DecidableEq

/-- The all-zero `uart_config` entry produced by `memset(config, 0, ...)`. -/
def zero_uart_port_config : uart_port_config_t :=
  { enabled := false, baud_rate := 0, data_bits := 0, stop_bits := 0,
    parity := 0, flow_control := false }

/-- The all-zero `adc_config` entry produced by `memset(config, 0, ...)`. -/
def zero_adc_channel_config : adc_channel_config_t :=
  { enabled := false, sample_rate_hz := 0, voltage_scale := 0,
    filter_alpha := 0, attenuation := 0 }

/-- The zeroed `system_config_t` produced by `memset(config, 0, sizeof(system_config_t))`
at the top of `config_load_defaults`: the two fixed-size arrays hold
`CONFIG_UART_PORT_COUNT` / `CONFIG_ADC_CHANNEL_COUNT` zeroed entries. -/
def zero_system_config : system_config_t :=
  { device_name := "",
    device_id := 0,
    uart_config := List.replicate CONFIG_UART_PORT_COUNT zero_uart_port_config,
    adc_config := List.replicate CONFIG_ADC_CHANNEL_COUNT zero_adc_channel_config,
    storage_config := { auto_start := false, max_file_size_mb := 0,
                        buffer_flush_interval_ms := 0, compress_files := false,
                        retention_days := 0 } }

/-- State threaded through the embedding of `config_load_defaults`: the config
being filled in, plus a flag recording whether any store into the
`uart_config` array used an index outside `0 .. CONFIG_UART_PORT_COUNT - 1`
(in the C source such a store is an out-of-bounds write into adjacent
memory; the total embedding records it instead of performing it). -/
structure config_write_state where
  cfg : system_config_t
  oob_uart_write : Bool
deriving Repr, DecidableEq

/-- Bounds-checked store into `config->uart_config[i]`.  The array length in
the embedding equals `CONFIG_UART_PORT_COUNT` (the declared C array size), so
an index outside it marks the out-of-bounds branch instead of writing. -/
def set_uart_config (st : config_write_state) (i : Nat)
    (g : uart_port_config_t → uart_port_config_t) : config_write_state :=
  if i < st.cfg.uart_config.length then
    { st with cfg := { st.cfg with
        uart_config := st.cfg.uart_config.set i
          (g (st.cfg.uart_config.getD i zero_uart_port_config)) } }
  else
    { st with oob_uart_write := true }

/-- Store into `config->adc_config[i]` (all such stores in
`config_load_defaults` use loop indices below `CONFIG_ADC_CHANNEL_COUNT`,
so no out-of-bounds flag is needed; an out-of-range index is a no-op). -/
def set_adc_config (st : config_write_state) (i : Nat)
    (g : adc_channel_config_t → adc_channel_config_t) : config_write_state :=
  if i < st.cfg.adc_config.length then
    { st with cfg := { st.cfg with
        adc_config := st.cfg.adc_config.set i
          (g (st.cfg.adc_config.getD i zero_adc_channel_config)) } }
  else
    st

/-- `config_load_defaults` (config.c, lines 45-110), embedded over
`config_write_state`.  Statement-by-statement translation of the stores the
function performs on the uart/adc/storage sections; the trailing
wifi/display/network/system scalar stores touch no array and are omitted
from the write trace (they leave `oob_uart_write` untouched by
construction). Note the three unconditional `baud_rate` stores at indices
0, 1 and 2 after the `for (i < CONFIG_UART_PORT_COUNT)` loop. -/
def config_load_defaults : config_write_state :=
  -- memset(config, 0, sizeof(system_config_t)); then device fields:
  let st : config_write_state :=
    { cfg := { zero_system_config with device_name := "ESP32-DataLogger" },
      oob_uart_write := false }
  -- for (int i = 0; i < CONFIG_UART_PORT_COUNT; i++) { enabled/data_bits/... }
  let st := (List.range CONFIG_UART_PORT_COUNT).foldl
    (fun st i => set_uart_config st i (fun u =>
      { u with enabled := true, data_bits := 8, stop_bits := 1,
               parity := 0, flow_control := false })) st
  -- config->uart_config[0].baud_rate = CONFIG_UART1_DEFAULT_BAUD;
  let st := set_uart_config st 0 (fun u => { u with baud_rate := CONFIG_UART1_DEFAULT_BAUD })
  -- config->uart_config[1].baud_rate = CONFIG_UART2_DEFAULT_BAUD;
  let st := set_uart_config st 1 (fun u => { u with baud_rate := CONFIG_UART2_DEFAULT_BAUD })
  -- config->uart_config[2].baud_rate = CONFIG_UART3_DEFAULT_BAUD;
  let st := set_uart_config st 2 (fun u => { u with baud_rate := CONFIG_UART3_DEFAULT_BAUD })
  -- for (int i = 0; i < CONFIG_ADC_CHANNEL_COUNT; i++) { ... }
  let st := (List.range CONFIG_ADC_CHANNEL_COUNT).foldl
    (fun st i => set_adc_config st i (fun a =>
      { a with enabled := true, sample_rate_hz := CONFIG_ADC_DEFAULT_SAMPLE_RATE,
               voltage_scale := 4, filter_alpha := 1/10, attenuation := 3 })) st
  -- storage section:
  { st with cfg := { st.cfg with storage_config :=
      { auto_start := true, max_file_size_mb := CONFIG_MAX_FILE_SIZE_MB,
        buffer_flush_interval_ms := 1000, compress_files := false,
        retention_days := 7 } } }

/-! ## Checksum (`storage_calculate_checksum`, storage_manager.c) -/

/-- `storage_calculate_checksum` (storage_manager.c):
```
uint8_t checksum = 0;
for (size_t i = 0; i < length; i++) checksum ^= data[i];
return checksum;
```
The byte loop is a left fold of XOR starting from 0. -/
def storage_calculate_checksum (data : List Nat) : Nat :=
  data.foldl (fun checksum b => checksum ^^^ b) 0

/-- Specification-side XOR reduction of a byte sequence (the spec's
"XOR-fold of the payload bytes"), written as a right-to-left reduction to be
syntactically independent of the loop in the source. -/
def xor_reduction : List Nat → Nat
  | [] => 0
  | b :: rest => b ^^^ xor_reduction rest

theorem foldl_xor_eq (l : List Nat) (a : Nat) :
    l.foldl (fun checksum b => checksum ^^^ b) a = a ^^^ xor_reduction l := by
  induction l generalizing a with
  | nil => simp [xor_reduction]
  | cons b rest ih =>
    simp only [List.foldl_cons, xor_reduction, ih]
    rw [Nat.xor_assoc]

theorem xor_reduction_append (l1 l2 : List Nat) :
    xor_reduction (l1 ++ l2) = xor_reduction l1 ^^^ xor_reduction l2 := by
  induction l1 with
  | nil => simp [xor_reduction]
  | cons b rest ih =>
    show b ^^^ xor_reduction (rest ++ l2) = (b ^^^ xor_reduction rest) ^^^ xor_reduction l2
    rw [ih, Nat.xor_assoc]

theorem xor_left_cancel (a b c : Nat) (h : a ^^^ b = a ^^^ c) : b = c := by
  have h2 : a ^^^ (a ^^^ b) = a ^^^ (a ^^^ c) := by rw [h]
  rwa [← Nat.xor_assoc, ← Nat.xor_assoc, Nat.xor_self, Nat.zero_xor, Nat.zero_xor] at h2

/-! ## ADC manager (`adc_manager.h`, `adc_manager.c`) -/

/-- `adc_stats_t` (adc_manager.h); float fields embedded as `ℚ`. -/
structure adc_stats_t where
  total_samples : Nat
  dropped_samples : Nat
  error_count : Nat
  min_voltage : ℚ
  max_voltage : ℚ
  avg_voltage : ℚ
  last_sample_time : Nat
deriving Repr, DecidableEq

/-- `adc_channel_context_t` (adc_manager.h). -/
structure adc_channel_context_t where
  channel : Nat
  sequence_number : Nat
  filter_initialized : Bool
  filtered_value : ℚ
  last_sample_time : Nat
  stats : adc_stats_t
deriving Repr, DecidableEq

/-- An ADC channel context as `adc_manager_init` leaves it (adc_manager.c):
sequence 0, filter not initialized, zeroed statistics. -/
def fresh_adc_channel (ch : Nat) : adc_channel_context_t :=
  { channel := ch, sequence_number := 0, filter_initialized := false,
    filtered_value := 0, last_sample_time := 0,
    stats := { total_samples := 0, dropped_samples := 0, error_count := 0,
               min_voltage := 0, max_voltage := 0, avg_voltage := 0,
               last_sample_time := 0 } }

/-- `apply_moving_average` (adc_manager.c):
```
float alpha = config->adc_config[channel->channel].filter_alpha;
if (channel->filter_initialized)
  channel->filtered_value = alpha * new_value + (1.0f - alpha) * channel->filtered_value;
else { channel->filtered_value = new_value; channel->filter_initialized = true; }
return channel->filtered_value;
```
The C function mutates the channel context and returns its new
`filtered_value`; the embedding returns the updated context (the returned
value is its `filtered_value` field). -/
def apply_moving_average (config : system_config_t)
    (channel : adc_channel_context_t) (new_value : ℚ) : adc_channel_context_t :=
  let alpha := (config.adc_config.getD channel.channel zero_adc_channel_config).filter_alpha
  if channel.filter_initialized then
    { channel with filtered_value := alpha * new_value + (1 - alpha) * channel.filtered_value }
  else
    { channel with filtered_value := new_value, filter_initialized := true }

/-- `adc_data_packet_t` (adc_manager.h). -/
structure adc_data_packet_t where
  timestamp_us : Nat
  channel : Nat
  raw_value : Int
  voltage : ℚ
  filtered_voltage : ℚ
  sequence : Nat
deriving Repr, DecidableEq

/-- `#define ADC_QUEUE_SIZE 10` (adc_manager.h). -/
def ADC_QUEUE_SIZE : Nat := 10

/-- The statistics updates `adc_sampling_task` performs after a successful
`xQueueSend` (adc_manager.c, lines 299-313): `total_samples++`, then the
min/max checks (each against the raw `voltage`, with the `total_samples == 1`
cold-start override, reading the just-incremented counter), then the
incremental running-average update
`avg = (avg * (total_samples - 1) + voltage) / total_samples`. -/
def adc_stats_on_send (stats : adc_stats_t) (voltage : ℚ) : adc_stats_t :=
  { stats with
    total_samples := stats.total_samples + 1,
    min_voltage :=
      if voltage < stats.min_voltage ∨ stats.total_samples + 1 = 1 then voltage
      else stats.min_voltage,
    max_voltage :=
      if stats.max_voltage < voltage ∨ stats.total_samples + 1 = 1 then voltage
      else stats.max_voltage,
    avg_voltage :=
      (stats.avg_voltage * (stats.total_samples : ℚ) + voltage) /
        ((stats.total_samples : ℚ) + 1) }

/-- One enabled channel's slice of an `adc_sampling_task` cycle
(adc_manager.c, lines 269-320), for the cycle timestamp `timestamp` and the
HAL read results (`none` embeds a failing `hal_adc_read_raw` /
`hal_adc_read_voltage`).  Mirrors the source:
  - a failing raw or voltage read increments `error_count` and skips the
    channel, touching nothing else;
  - on success the filter is applied, a packet is built with
    `sequence = channel->sequence_number++` (the counter is consumed at
    packet creation, before the queue send);
  - `xQueueSend(..., 0)` onto the full shared queue (capacity
    `ADC_QUEUE_SIZE`) fails: `dropped_samples++`, packet discarded;
    on success the packet is appended and the statistics update of
    `adc_stats_on_send` plus `last_sample_time` are applied. -/
def adc_sample_channel (config : system_config_t) (Q : Nat)
    (channel0 : adc_channel_context_t) (queue : List adc_data_packet_t)
    (timestamp : Nat) (raw_read : Option Int) (volt_read : Option ℚ) :
    adc_channel_context_t × List adc_data_packet_t :=
  match raw_read with
  | none =>
    ({ channel0 with stats :=
        { channel0.stats with error_count := channel0.stats.error_count + 1 } },
     queue)
  | some raw =>
    match volt_read with
    | none =>
      ({ channel0 with stats :=
          { channel0.stats with error_count := channel0.stats.error_count + 1 } },
       queue)
    | some voltage =>
      let channel1 := apply_moving_average config channel0 voltage
      let packet : adc_data_packet_t :=
        { timestamp_us := timestamp, channel := channel1.channel,
          raw_value := raw, voltage := voltage,
          filtered_voltage := channel1.filtered_value,
          sequence := channel1.sequence_number }
      let channel2 := { channel1 with sequence_number := channel1.sequence_number + 1 }
      if Q ≤ queue.length then
        ({ channel2 with stats :=
            { channel2.stats with dropped_samples := channel2.stats.dropped_samples + 1 } },
         queue)
      else
        ({ channel2 with
           stats := adc_stats_on_send channel2.stats voltage,
           last_sample_time := timestamp },
         queue ++ [packet])

/-! ## UART manager (`uart_manager.h`, `uart_manager.c`) -/

/-- `uart_stats_t` (uart_manager.h). -/
structure uart_stats_t where
  total_packets : Nat
  total_bytes : Nat
  dropped_packets : Nat
  error_count : Nat
  last_packet_time : Nat
deriving Repr, DecidableEq

/-- `uart_data_packet_t` (uart_manager.h).  The fixed
`uint8_t data[UART_MAX_PACKET_SIZE]` array together with the `length` field
is embedded as the list of the `length` meaningful bytes. -/
structure uart_data_packet_t where
  timestamp_us : Nat
  port : Nat
  length : Nat
  sequence : Nat
  data : List Nat
deriving Repr, DecidableEq

/-- `uart_channel_context_t` (uart_manager.h).  The FreeRTOS ring buffer
handle is embedded as a bounded FIFO list of packets (front = oldest); the
capacity is supplied where the buffer is used.  A channel whose ring buffer
was never created (`ring_buffer == NULL`) is marked by `has_ring_buffer`. -/
structure uart_channel_context_t where
  port : Nat
  active : Bool
  has_ring_buffer : Bool
  ring_buffer : List uart_data_packet_t
  sequence_number : Nat
  last_activity : Nat
  stats : uart_stats_t
deriving Repr, DecidableEq

/-- The all-zero `uart_stats_t` left by `memset(&channel->stats, 0, ...)`. -/
def zero_uart_stats : uart_stats_t :=
  { total_packets := 0, total_bytes := 0, dropped_packets := 0,
    error_count := 0, last_packet_time := 0 }

/-- A UART channel as `uart_manager_init` leaves it for an enabled port
(uart_manager.c): ring buffer created and empty, sequence 0, zeroed stats;
`uart_manager_start_channel` then sets `active`. -/
def fresh_uart_channel (port : Nat) : uart_channel_context_t :=
  { port := port, active := true, has_ring_buffer := true, ring_buffer := [],
    sequence_number := 0, last_activity := 0, stats := zero_uart_stats }

/-- One iteration of the `uart_task` body (uart_manager.c, lines 36-70) for a
read that returned `bytes` at time `now`, over a ring buffer of capacity
`C` packets.  Mirrors the source exactly:
  - `len <= 0` does nothing;
  - otherwise a packet is built with `sequence = channel->sequence_number++`
    (the counter is incremented at packet creation, before the ring-buffer
    send, and therefore also when the send subsequently fails);
  - `xRingbufferSend` failure (buffer full) increments `dropped_packets` and
    discards the packet; success appends it and updates
    `total_packets` / `total_bytes`;
  - `last_activity` is updated in both branches. -/
def uart_task_step (C : Nat) (channel : uart_channel_context_t)
    (now : Nat) (bytes : List Nat) : uart_channel_context_t :=
  if bytes.length = 0 then channel
  else
    let packet : uart_data_packet_t :=
      { timestamp_us := now, port := channel.port, length := bytes.length,
        sequence := channel.sequence_number, data := bytes }
    let channel := { channel with sequence_number := channel.sequence_number + 1 }
    if C ≤ channel.ring_buffer.length then
      { channel with
        stats := { channel.stats with dropped_packets := channel.stats.dropped_packets + 1 },
        last_activity := now }
    else
      { channel with
        ring_buffer := channel.ring_buffer ++ [packet],
        stats := { channel.stats with
          total_packets := channel.stats.total_packets + 1,
          total_bytes := channel.stats.total_bytes + bytes.length },
        last_activity := now }

/-- `uart_manager_get_data` (uart_manager.c, lines 174-196), at the level of
one channel context (the port-range and NULL-pointer checks live in the
manager wrapper).  The ring buffer was created as `RINGBUF_TYPE_BYTEBUF`
(uart_manager.c, line 99), which does not keep item boundaries:
`xRingbufferReceive` on a byte buffer returns ALL contiguously stored bytes
as one item (in this embedding the entire buffered content; a physical wrap
point would only split one run into two successive receives), the
`memcpy(packet, received_packet, sizeof(uart_data_packet_t))` copies just
the FIRST packet of that run, and `vRingbufferReturnItem` then frees the
whole run — every buffered packet after the first is discarded by a single
pop.  An elapsed timeout on an empty buffer yields `ESP_ERR_TIMEOUT`. -/
def uart_channel_receive (channel : uart_channel_context_t) :
    esp_err_t × uart_channel_context_t × Option uart_data_packet_t :=
  if channel.active = false ∨ channel.has_ring_buffer = false then
    (.ESP_ERR_INVALID_STATE, channel, none)
  else
    match channel.ring_buffer with
    | [] => (.ESP_ERR_TIMEOUT, channel, none)
    | p :: _ => (.ESP_OK, { channel with ring_buffer := [] }, some p)

/-- `uart_manager_state_t` (uart_manager.c). -/
structure uart_manager_state_t where
  initialized : Bool
  running : Bool
  channels : List uart_channel_context_t
deriving Repr, DecidableEq

/-- `uart_manager_get_stats` (uart_manager.c, lines 198-207).  `stats_ptr_ok`
embeds the `stats != NULL` test on the caller's output pointer.  The function
writes only through that pointer; the manager state is returned so the
theorem can state that it is unchanged.  The returned `Option` is the
snapshot copied by `memcpy(stats, &channel->stats, sizeof(uart_stats_t))`. -/
def uart_manager_get_stats (mgr : uart_manager_state_t) (port : Nat)
    (stats_ptr_ok : Bool) :
    esp_err_t × uart_manager_state_t × Option uart_stats_t :=
  if CONFIG_UART_PORT_COUNT ≤ port ∨ stats_ptr_ok = false then
    (.ESP_ERR_INVALID_ARG, mgr, none)
  else
    (.ESP_OK, mgr, some ((mgr.channels.getD port (fresh_uart_channel port)).stats))

/-- The manager state right after `uart_manager_init` with every port enabled
(uart_manager.c, lines 77-113): each channel has port `i`, `active = false`,
sequence 0, zeroed stats, and (being enabled) a fresh empty ring buffer. -/
def uart_manager_init_state : uart_manager_state_t :=
  { initialized := true, running := false,
    channels := (List.range CONFIG_UART_PORT_COUNT).map
      (fun i => { fresh_uart_channel i with active := false }) }

/-! ## Storage manager (`storage_manager.h`, `storage_manager.c`) -/

/-- `#define STORAGE_QUEUE_SIZE 50` -/
def STORAGE_QUEUE_SIZE : Nat := 50

/-- `#define STORAGE_MAX_FILES 8` -/
def STORAGE_MAX_FILES : Nat := 8

/-- `#define STORAGE_MAGIC_NUMBER 0xDEADBEEF` -/
def STORAGE_MAGIC_NUMBER : Nat := 0xDEADBEEF

/-- `#define STORAGE_DEFAULT_PRIORITY 5` -/
def STORAGE_DEFAULT_PRIORITY : Nat := 5

/-- `data_type_t` values (storage_manager.h): `DATA_TYPE_UART = 1`,
`DATA_TYPE_ADC = 2`, `DATA_TYPE_SYSTEM = 3`; carried as the `Nat` the C
enum stores into the `uint8_t data_type` field. -/
def DATA_TYPE_UART : Nat := 1

/-- `DATA_TYPE_ADC = 2` (storage_manager.h). -/
def DATA_TYPE_ADC : Nat := 2

/-- `data_packet_t` (storage_manager.h): a packed struct of
`{magic u32, timestamp_us u64, source_id u8, data_type u8, data_length u16,
checksum u8}` followed by a flexible array member `uint8_t data[]` holding
the payload. -/
structure data_packet_t where
  magic : Nat
  timestamp_us : Nat
  source_id : Nat
  data_type : Nat
  data_length : Nat
  checksum : Nat
  data : List Nat
deriving Repr, DecidableEq

/-- `sizeof(data_packet_t)`.  The struct is `__attribute__((packed))` and its
`data[]` member is a flexible array member, which contributes nothing to
`sizeof`; hence 4 + 8 + 1 + 1 + 2 + 1 = 17 bytes: the header only. -/
def sizeof_data_packet : Nat := 17

/-- Little-endian byte encoding of `v` on `w` bytes (the ESP32-C6 is
little-endian, so `fwrite` of a packed struct field emits these bytes). -/
def le_bytes (w v : Nat) : List Nat :=
  (List.range w).map (fun i => v / 256 ^ i % 256)

/-- The 17 bytes that `fwrite(packet, sizeof(data_packet_t), 1, fh)` emits:
the packed header fields in declaration order, little-endian. -/
def header_bytes (p : data_packet_t) : List Nat :=
  le_bytes 4 p.magic ++ le_bytes 8 p.timestamp_us ++ le_bytes 1 p.source_id ++
  le_bytes 1 p.data_type ++ le_bytes 2 p.data_length ++ le_bytes 1 p.checksum

/-- `log_file_t` (storage_manager.h).  The `FILE*` handle is embedded as
`has_handle` (non-NULL) plus `contents`, the bytes written through it since
`fopen(filename, "wb")` (which truncates); `filename` is embedded as the
(kind tag, creation wall time) pair `generate_filename` derives it from. -/
structure log_file_t where
  filename : Nat × Nat
  has_handle : Bool
  contents : List Nat
  active : Bool
  data_type : Nat
  current_size : Nat
  record_count : Nat
  creation_time : Nat
deriving Repr, DecidableEq

/-- A `log_file_t` slot as `memset(g_storage_manager.current_files, 0, ...)`
in `storage_manager_init` leaves it. -/
def zero_log_file : log_file_t :=
  { filename := (0, 0), has_handle := false, contents := [], active := false,
    data_type := 0, current_size := 0, record_count := 0, creation_time := 0 }

/-- `storage_stats_t` (storage_manager.h). -/
structure storage_stats_t where
  total_writes : Nat
  write_errors : Nat
  files_created : Nat
  files_rotated : Nat
  bytes_written : Nat
  last_write_time : Nat
deriving Repr, DecidableEq

/-- `storage_write_request_t` (storage_manager.h): one `data_packet_t` plus a
priority.  NOTE: the C struct embeds `data_packet_t packet` by value, and the
producers fill it with `memcpy(&request.packet, packet, sizeof(data_packet_t))`,
which copies exactly the 17 header bytes - the flexible `data[]` payload is
not copied (see `storage_manager_write_uart_data`). -/
structure storage_write_request_t where
  packet : data_packet_t
  priority : Nat
deriving Repr, DecidableEq

/-- `storage_manager_state_t` (storage_manager.c).  The FreeRTOS write queue
is a bounded FIFO list of capacity `STORAGE_QUEUE_SIZE`. -/
structure storage_manager_state_t where
  initialized : Bool
  running : Bool
  write_queue : List storage_write_request_t
  current_files : List log_file_t
  total_files_created : Nat
  total_bytes_written : Nat
  stats : storage_stats_t
deriving Repr, DecidableEq

/-- The state right after `storage_manager_init` (storage_manager.c,
lines 540-566): empty queue, all `STORAGE_MAX_FILES` slots zeroed, zeroed
counters and stats. -/
def storage_manager_init_state : storage_manager_state_t :=
  { initialized := true, running := false, write_queue := [],
    current_files := List.replicate STORAGE_MAX_FILES zero_log_file,
    total_files_created := 0, total_bytes_written := 0,
    stats := { total_writes := 0, write_errors := 0, files_created := 0,
               files_rotated := 0, bytes_written := 0, last_write_time := 0 } }

/-- `write_data_packet` (storage_manager.c, lines 425-446):
```
if (!log_file || !log_file->file_handle || !packet) return ESP_ERR_INVALID_ARG;
size_t written = fwrite(packet, sizeof(data_packet_t), 1, log_file->file_handle);
if (written != 1) return ESP_FAIL;
log_file->current_size += sizeof(data_packet_t);
log_file->record_count++;
if (log_file->record_count % 10 == 0) fflush(log_file->file_handle);
```
`fwrite` of `sizeof(data_packet_t)` bytes starting at `packet` appends
exactly the 17 packed header bytes - the flexible-array payload is NOT part
of `sizeof(data_packet_t)` and is not written.  The `fwrite` itself is
modelled as succeeding (a short write only occurs on device failure); the
periodic `fflush` has no effect on the byte stream. -/
def write_data_packet (log_file : log_file_t) (packet : data_packet_t) :
    esp_err_t × log_file_t :=
  if log_file.has_handle = false then (.ESP_ERR_INVALID_ARG, log_file)
  else
    (.ESP_OK,
     { log_file with
       contents := log_file.contents ++ header_bytes packet,
       current_size := log_file.current_size + sizeof_data_packet,
       record_count := log_file.record_count + 1 })

/-- The lazily-created file of `storage_task` (storage_manager.c, lines
469-494): `generate_filename` from the kind tag and the wall clock,
`fopen(..., "wb")` (fresh empty file), then
`active = true; data_type = ...; current_size = 0; record_count = 0;
creation_time = esp_timer_get_time();`. -/
def create_log_file (dt now : Nat) (slot : log_file_t) : log_file_t :=
  { slot with
    filename := (dt, now), has_handle := true, contents := [],
    active := true, data_type := dt, current_size := 0, record_count := 0,
    creation_time := now }

/-- Rotation (storage_manager.c, lines 515-517): `fclose(handle);
log_file->active = false; log_file->file_handle = NULL;`. -/
def close_log_file (f : log_file_t) : log_file_t :=
  { f with active := false, has_handle := false }

/-- The write-then-rotation-check sequence of `storage_task` (lines 500-518):
write the packet into the chosen file, then - regardless of the write's
return value - close the file if its running size has reached
`config->storage_config.max_file_size_mb * 1024 * 1024` (passed in here as
`maxBytes`). -/
def write_and_rotate (maxBytes : Nat) (packet : data_packet_t)
    (f : log_file_t) : esp_err_t × log_file_t :=
  if maxBytes ≤ (write_data_packet f packet).2.current_size then
    ((write_data_packet f packet).1, close_log_file (write_data_packet f packet).2)
  else
    write_data_packet f packet

/-- Apply `g` to the first list element satisfying `p`, leaving the rest
unchanged; `none` when no element satisfies `p`.  This is the shape shared by
the two `for (i = 0; i < STORAGE_MAX_FILES; i++) { ... break; }` scans of
`storage_task` (find the active file of a kind; find a free slot). -/
def update_first {α β : Type} (p : α → Bool) (g : α → β × α) :
    List α → Option (β × List α)
  | [] => none
  | x :: xs =>
    if p x then some ((g x).1, (g x).2 :: xs)
    else (update_first p g xs).map (fun r => (r.1, x :: r.2))

/-- Bookkeeping after `write_data_packet` returns inside `storage_task`
(lines 500-507): on `ESP_OK`, `stats.total_writes++` and
`total_bytes_written += sizeof(data_packet_t)`; otherwise
`stats.write_errors++`. -/
def apply_write_result (s : storage_manager_state_t) (ret : esp_err_t)
    (files2 : List log_file_t) : storage_manager_state_t :=
  if ret = .ESP_OK then
    { s with
      current_files := files2,
      stats := { s.stats with total_writes := s.stats.total_writes + 1 },
      total_bytes_written := s.total_bytes_written + sizeof_data_packet }
  else
    { s with
      current_files := files2,
      stats := { s.stats with write_errors := s.stats.write_errors + 1 } }

/-- One dequeued request processed by the `storage_task` loop body
(storage_manager.c, lines 456-519): look for the active log file of the
request's data type; if none, create one in the first free slot (`fopen` is
modelled as succeeding - file-system failure is outside the claims); write
the packet there and apply the rotation check; if every slot is occupied by
an active file of another type, nothing is written (the C `log_file` pointer
stays NULL and the `if (log_file)` block is skipped). -/
def storage_process_request (maxBytes : Nat) (s : storage_manager_state_t)
    (req : storage_write_request_t) (now : Nat) : storage_manager_state_t :=
  match update_first (fun f => f.active && f.data_type == req.packet.data_type)
      (fun f => write_and_rotate maxBytes req.packet f) s.current_files with
  | some (ret, files2) => apply_write_result s ret files2
  | none =>
    match update_first (fun f => !f.active)
        (fun slot => write_and_rotate maxBytes req.packet
          (create_log_file req.packet.data_type now slot)) s.current_files with
    | some (ret, files2) =>
      apply_write_result
        { s with total_files_created := s.total_files_created + 1 } ret files2
    | none => s

/-- `storage_manager_write_uart_data` (storage_manager.c, lines 593-631):
```
if (!data || length == 0 || length > 256) return ESP_ERR_INVALID_ARG;
if (!g_storage_manager.running) return ESP_ERR_INVALID_STATE;
data_packet_t* packet = malloc(sizeof(data_packet_t) + length);
packet->magic = STORAGE_MAGIC_NUMBER;
packet->timestamp_us = esp_timer_get_time();   // stamped HERE, at call time
packet->source_id = port; packet->data_type = DATA_TYPE_UART;
packet->data_length = length;
packet->checksum = storage_calculate_checksum(data, length);
memcpy(packet->data, data, length);
storage_write_request_t request = { .priority = STORAGE_DEFAULT_PRIORITY };
memcpy(&request.packet, packet, sizeof(data_packet_t));  // 17 bytes: header only
if (xQueueSend(...) != pdTRUE) ret = ESP_ERR_TIMEOUT;
```
`data_ptr` is `none` for a NULL `data` pointer; `now` is the
`esp_timer_get_time()` value at the call.  The `memcpy` of
`sizeof(data_packet_t)` bytes into `request.packet` copies the header but
not the flexible-array payload, so the enqueued packet's `data` is empty. -/
def storage_manager_write_uart_data (s : storage_manager_state_t) (now : Nat)
    (port : Nat) (data_ptr : Option (List Nat)) :
    esp_err_t × storage_manager_state_t :=
  match data_ptr with
  | none => (.ESP_ERR_INVALID_ARG, s)
  | some data =>
    if data.length = 0 ∨ 256 < data.length then (.ESP_ERR_INVALID_ARG, s)
    else if s.running = false then (.ESP_ERR_INVALID_STATE, s)
    else
      let packet : data_packet_t :=
        { magic := STORAGE_MAGIC_NUMBER, timestamp_us := now,
          source_id := port, data_type := DATA_TYPE_UART,
          data_length := data.length,
          checksum := storage_calculate_checksum data, data := data }
      let request : storage_write_request_t :=
        { packet := { packet with data := [] }, priority := STORAGE_DEFAULT_PRIORITY }
      if s.write_queue.length < STORAGE_QUEUE_SIZE then
        (.ESP_OK, { s with write_queue := s.write_queue ++ [request] })
      else
        (.ESP_ERR_TIMEOUT, s)

/-- The UART branch of `data_coordination_task` (data_logger.c, lines 28-37):
a packet popped from a producer's ring buffer is forwarded with
`storage_manager_write_uart_data(uart_packet.port, uart_packet.data,
uart_packet.length)` - only port, payload and length are passed; the packet's
own `timestamp_us` (and `sequence`) are not forwarded.  `now` is the wall
clock when the storage write API runs. -/
def data_coordination_forward_uart (s : storage_manager_state_t) (now : Nat)
    (uart_packet : uart_data_packet_t) : esp_err_t × storage_manager_state_t :=
  storage_manager_write_uart_data s now uart_packet.port (some uart_packet.data)

/-- The storage manager state after `storage_manager_init` and
`storage_manager_start` (which sets `running = true`). -/
def running_storage_state : storage_manager_state_t :=
  { storage_manager_init_state with running := true }

/-! ## Theorems -/

/-- C6: for every payload byte sequence, `storage_calculate_checksum` is a
pure function of the payload equal to the XOR reduction of its bytes (so the
value computed at write time equals the XOR-fold recomputed from the same
payload bytes after reading the record back), and changing exactly one
payload byte to a different value changes the checksum. -/
theorem C6_checksum_xor_fold (payload pre post : List Nat) (x y : Nat)
    (hxy : x ≠ y) :
    storage_calculate_checksum payload = xor_reduction payload ∧
    storage_calculate_checksum (pre ++ x :: post) ≠
      storage_calculate_checksum (pre ++ y :: post) := by
  constructor
  · rw [storage_calculate_checksum, foldl_xor_eq, Nat.zero_xor]
  · intro h
    rw [storage_calculate_checksum, storage_calculate_checksum,
        foldl_xor_eq, foldl_xor_eq, Nat.zero_xor, Nat.zero_xor,
        xor_reduction_append, xor_reduction_append] at h
    have h2 : xor_reduction (x :: post) = xor_reduction (y :: post) :=
      xor_left_cancel _ _ _ h
    rw [xor_reduction, xor_reduction, Nat.xor_comm x, Nat.xor_comm y] at h2
    exact hxy (xor_left_cancel _ _ _ h2)

/-- Witness for C6 at a concrete payload and a concrete one-byte change. -/
theorem C6_checksum_xor_fold_witness :
    (3 : Nat) ≠ 4 ∧
    (storage_calculate_checksum [72, 101, 108] = xor_reduction [72, 101, 108] ∧
     storage_calculate_checksum ([72] ++ 3 :: [108]) ≠
       storage_calculate_checksum ([72] ++ 4 :: [108])) :=
  ⟨by decide, C6_checksum_xor_fold [72, 101, 108] [72] [108] 3 4 (by decide)⟩

/-- A configuration whose ADC channel 0 has `filter_alpha = 0.5` (exactly
representable in `float`, so the rational model matches the float
evaluation), for the concrete cold-start scenario of C7. -/
def adc_half_alpha_config : system_config_t :=
  { zero_system_config with
    adc_config :=
      [{ zero_adc_channel_config with enabled := true, filter_alpha := 1/2 },
       zero_adc_channel_config] }

/-- C7: the exponential moving-average filter of `apply_moving_average`
yields exactly the raw value on a channel's first sample (cold start) and
`alpha * new + (1 - alpha) * previous` on every later sample; with
`alpha = 0.5` and successive inputs 2.0 then 4.0 the second filtered value
is exactly 3.0 (all the float operations involved are exact, so the `ℚ`
model coincides with the `float` computation). -/
theorem C7_filter_cold_start (config : system_config_t)
    (channel : adc_channel_context_t) (v : ℚ) :
    (channel.filter_initialized = false →
      (apply_moving_average config channel v).filtered_value = v ∧
      (apply_moving_average config channel v).filter_initialized = true) ∧
    (channel.filter_initialized = true →
      (apply_moving_average config channel v).filtered_value =
        (config.adc_config.getD channel.channel zero_adc_channel_config).filter_alpha * v +
        (1 - (config.adc_config.getD channel.channel zero_adc_channel_config).filter_alpha) *
          channel.filtered_value) ∧
    (apply_moving_average adc_half_alpha_config
      (apply_moving_average adc_half_alpha_config (fresh_adc_channel 0) 2) 4).filtered_value
      = 3 := by
  refine ⟨fun h => ?_, fun h => ?_, ?_⟩
  · simp [apply_moving_average, h]
  · simp [apply_moving_average, h]
  · show (1/2 : ℚ) * 4 + (1 - 1/2) * 2 = 3
    norm_num

/-- Witness for C7: the cold-start branch applied to a concrete fresh
channel and input. -/
theorem C7_filter_cold_start_witness :
    (fresh_adc_channel 0).filter_initialized = false ∧
    ((apply_moving_average adc_half_alpha_config (fresh_adc_channel 0) 2).filtered_value = 2 ∧
     (apply_moving_average adc_half_alpha_config (fresh_adc_channel 0) 2).filter_initialized = true) :=
  ⟨rfl, (C7_filter_cold_start adc_half_alpha_config (fresh_adc_channel 0) 2).1 rfl⟩

/-- C8: a call to `storage_manager_write_uart_data` with a NULL payload
pointer, a zero-length payload or a payload longer than the fixed 256-byte
maximum returns `ESP_ERR_INVALID_ARG` and leaves the entire storage manager
state (write queue, files, statistics) unchanged: the malformed request is
rejected before anything is enqueued. -/
theorem C8_reject_malformed (s : storage_manager_state_t) (now port : Nat)
    (data_ptr : Option (List Nat))
    (h : data_ptr = none ∨
         ∃ d, data_ptr = some d ∧ (d.length = 0 ∨ 256 < d.length)) :
    storage_manager_write_uart_data s now port data_ptr =
      (.ESP_ERR_INVALID_ARG, s) := by
  rcases h with h | ⟨d, hd, hbad⟩
  · rw [h]; rfl
  · rw [hd]
    simp only [storage_manager_write_uart_data, if_pos hbad]

/-- Witness for C8 at a concrete zero-length payload. -/
theorem C8_reject_malformed_witness :
    (([] : List Nat).length = 0 ∨ 256 < ([] : List Nat).length) ∧
    storage_manager_write_uart_data running_storage_state 5 0 (some []) =
      (.ESP_ERR_INVALID_ARG, running_storage_state) :=
  ⟨Or.inl rfl,
   C8_reject_malformed running_storage_state 5 0 (some [])
     (Or.inr ⟨[], rfl, Or.inl rfl⟩)⟩

/-- C9: the claim states that every store into the `uart_config` array made
by `config_load_defaults` uses an index below `CONFIG_UART_PORT_COUNT`, so
the out-of-range branch of the bounds-checked embedding is never reached.
The code refutes this: the unconditional statement
`config->uart_config[2].baud_rate = CONFIG_UART3_DEFAULT_BAUD;` uses
index 2 while the array declared in config.h has
`CONFIG_UART_PORT_COUNT = 2` entries, so the out-of-range branch IS
reached (in C this is an out-of-bounds write past the array). -/
theorem C9_uart_config_oob :
    config_load_defaults.oob_uart_write = true ∧
    ¬(2 < CONFIG_UART_PORT_COUNT) := by
  constructor
  · rfl
  · decide

/-- C10 (part of the claim's success case): after `uart_manager_init`, every
channel's statistics block is all-zero — a channel that never ran reports
zero counters. -/
theorem uart_init_stats_zero (p : Nat) (hp : p < CONFIG_UART_PORT_COUNT) :
    (uart_manager_init_state.channels.getD p (fresh_uart_channel p)).stats =
      zero_uart_stats := by
  match p, hp with
  | 0, _ => rfl
  | 1, _ => rfl

/-- C10: `uart_manager_get_stats` returns `ESP_OK` together with a snapshot
of the channel's statistics when the port index is in range and the output
pointer is non-NULL, returns `ESP_ERR_INVALID_ARG` when the index is out of
range or the pointer is NULL, and in every case leaves the manager state
unchanged; after `uart_manager_init` the snapshot of a channel that never
ran is all-zero. -/
theorem C10_get_stats_frame (mgr : uart_manager_state_t) (port : Nat)
    (stats_ptr_ok : Bool) :
    (port < CONFIG_UART_PORT_COUNT → stats_ptr_ok = true →
      uart_manager_get_stats mgr port stats_ptr_ok =
        (.ESP_OK, mgr,
         some ((mgr.channels.getD port (fresh_uart_channel port)).stats))) ∧
    (CONFIG_UART_PORT_COUNT ≤ port ∨ stats_ptr_ok = false →
      uart_manager_get_stats mgr port stats_ptr_ok =
        (.ESP_ERR_INVALID_ARG, mgr, none)) ∧
    (∀ p, p < CONFIG_UART_PORT_COUNT →
      (uart_manager_init_state.channels.getD p (fresh_uart_channel p)).stats =
        zero_uart_stats) := by
  refine ⟨fun hlt hptr => ?_, fun hbad => ?_, fun p hp => uart_init_stats_zero p hp⟩
  · have hn : ¬(CONFIG_UART_PORT_COUNT ≤ port ∨ stats_ptr_ok = false) := by
      rintro (h | h)
      · exact absurd hlt (Nat.not_lt.mpr h)
      · rw [hptr] at h
        exact Bool.noConfusion h
    rw [uart_manager_get_stats, if_neg hn]
  · rw [uart_manager_get_stats, if_pos hbad]

/-- The 11-byte payload `"Hello World"` used by the spec's end-to-end
scenario, as raw bytes. -/
def hello_payload : List Nat := [72, 101, 108, 108, 111, 32, 87, 111, 114, 108, 100]

/-- A fully-populated `data_packet_t` for `hello_payload`, built exactly as
`storage_manager_write_uart_data` fills the malloc'd packet (before the
header-only copy into the queue request). -/
def hello_packet : data_packet_t :=
  { magic := STORAGE_MAGIC_NUMBER, timestamp_us := 1000, source_id := 0,
    data_type := DATA_TYPE_UART, data_length := hello_payload.length,
    checksum := storage_calculate_checksum hello_payload,
    data := hello_payload }

/-- C2: the claim states that the bytes appended for an accepted write are
the fixed-size framed header followed immediately by `payload_length` bytes
of payload.  The code refutes this at the `"Hello World"` input:
`fwrite(packet, sizeof(data_packet_t), 1, ...)` writes only the 17-byte
packed header (`sizeof` of a struct whose payload is a flexible array
member excludes the payload), so the file receives the header and nothing
else, and `current_size` grows by 17 rather than by 17 + 11; moreover the
producer-side `memcpy(&request.packet, packet, sizeof(data_packet_t))`
already drops the payload from the enqueued request. -/
theorem C2_payload_never_written :
    (write_data_packet (create_log_file DATA_TYPE_UART 0 zero_log_file)
        hello_packet).2.contents = header_bytes hello_packet ∧
    (write_data_packet (create_log_file DATA_TYPE_UART 0 zero_log_file)
        hello_packet).2.contents ≠ header_bytes hello_packet ++ hello_packet.data ∧
    (write_data_packet (create_log_file DATA_TYPE_UART 0 zero_log_file)
        hello_packet).2.current_size = 17 ∧
    hello_packet.data_length = 11 ∧
    ((storage_manager_write_uart_data running_storage_state 5 0
        (some hello_payload)).2.write_queue.map (fun r => r.packet.data)) = [[]] := by
  refine ⟨rfl, ?_, rfl, rfl, rfl⟩
  intro h
  have h2 : header_bytes hello_packet =
      header_bytes hello_packet ++ hello_packet.data := h
  have h3 := congrArg List.length h2
  rw [List.length_append] at h3
  have h4 : hello_packet.data.length = 11 := rfl
  omega

/-- A producer-side packet captured at wall time 100 (the `uart_task` stamps
`timestamp_us = esp_timer_get_time()` at the hardware read). -/
def capture_time_packet : uart_data_packet_t :=
  { timestamp_us := 100, port := 0, length := 1, sequence := 0, data := [65] }

/-- C3 counterexample: a packet whose capture-time timestamp is 100 is
forwarded by the coordinator at wall time 200; the request enqueued for the
storage writer carries timestamp 200, not the capture time 100 — the
record handed to the storage writer does NOT carry the producer's
capture-time timestamp, refuting the claim. -/
theorem C3_counterexample :
    capture_time_packet.timestamp_us = 100 ∧
    ((data_coordination_forward_uart running_storage_state 200
        capture_time_packet).2.write_queue.map
          (fun r => r.packet.timestamp_us)) = [200] ∧
    (200 : Nat) ≠ 100 := by
  refine ⟨rfl, rfl, by decide⟩

/-- C3 amended: the timestamp carried by the record handed to the storage
writer is assigned inside `storage_manager_write_uart_data` at the moment
that API is called (enqueue-to-storage time); the producer's capture-time
timestamp is not forwarded by the coordinator and does not reach storage.
For every running state with queue room and every well-formed packet, the
enqueued request's `timestamp_us` equals the storage-write call time `now`,
whatever the packet's own capture timestamp was. -/
theorem C3_timestamp_at_enqueue (s : storage_manager_state_t) (now : Nat)
    (pkt : uart_data_packet_t) (hrun : s.running = true)
    (hne : pkt.data.length ≠ 0) (hcap : pkt.data.length ≤ 256)
    (hq : s.write_queue.length < STORAGE_QUEUE_SIZE) :
    data_coordination_forward_uart s now pkt =
      (.ESP_OK, { s with write_queue := s.write_queue ++
        [{ packet := { magic := STORAGE_MAGIC_NUMBER, timestamp_us := now,
                       source_id := pkt.port, data_type := DATA_TYPE_UART,
                       data_length := pkt.data.length,
                       checksum := storage_calculate_checksum pkt.data,
                       data := [] },
           priority := STORAGE_DEFAULT_PRIORITY }] }) := by
  rw [data_coordination_forward_uart, storage_manager_write_uart_data]
  rw [if_neg (by
    rintro (h | h)
    · exact hne h
    · exact absurd hcap (Nat.not_le.mpr h))]
  rw [hrun]
  simp only [Bool.true_eq_false, if_false, if_pos hq]

/-- Witness for C3's amended claim: concrete running state, call time 200,
capture-time-100 packet. -/
theorem C3_timestamp_at_enqueue_witness :
    (running_storage_state.running = true ∧
     capture_time_packet.data.length ≠ 0 ∧
     capture_time_packet.data.length ≤ 256 ∧
     running_storage_state.write_queue.length < STORAGE_QUEUE_SIZE) ∧
    data_coordination_forward_uart running_storage_state 200 capture_time_packet =
      (.ESP_OK, { running_storage_state with write_queue :=
        running_storage_state.write_queue ++
        [{ packet := { magic := STORAGE_MAGIC_NUMBER, timestamp_us := 200,
                       source_id := capture_time_packet.port,
                       data_type := DATA_TYPE_UART,
                       data_length := capture_time_packet.data.length,
                       checksum := storage_calculate_checksum capture_time_packet.data,
                       data := [] },
           priority := STORAGE_DEFAULT_PRIORITY }] }) :=
  ⟨⟨rfl, by decide, by decide, by decide⟩,
   C3_timestamp_at_enqueue running_storage_state 200 capture_time_packet
     rfl (by decide) (by decide) (by decide)⟩

/-- Producer-lifetime counter invariant for a UART channel: every nonempty
read consumes exactly one sequence number, so attempts
(`total_packets + dropped_packets`) always equal `sequence_number`. -/
def uart_counts_inv (ch : uart_channel_context_t) : Prop :=
  ch.stats.total_packets + ch.stats.dropped_packets = ch.sequence_number

/-- Producer-lifetime counter invariant for an ADC channel: every successful
read pair consumes exactly one sequence number, so attempts
(`total_samples + dropped_samples`) always equal `sequence_number`. -/
def adc_counts_inv (ach : adc_channel_context_t) : Prop :=
  ach.stats.total_samples + ach.stats.dropped_samples = ach.sequence_number

/-- `apply_moving_average` touches only the filter fields: the sequence
number and the statistics block of the channel context are unchanged. -/
theorem apply_moving_average_frame (config : system_config_t)
    (channel : adc_channel_context_t) (v : ℚ) :
    (apply_moving_average config channel v).sequence_number =
      channel.sequence_number ∧
    (apply_moving_average config channel v).stats = channel.stats := by
  cases h : channel.filter_initialized <;> simp [apply_moving_average, h]

/-- The channel state after the trace refuting C1: capacity-1 ring buffer;
read at t=10 enqueued (sequence 0), read at t=20 dropped (buffer full - but
its packet still consumed sequence 1), coordinator pops once, read at t=30
enqueued. -/
def C1_trace_channel : uart_channel_context_t :=
  uart_task_step 1
    ((uart_channel_receive
        (uart_task_step 1 (uart_task_step 1 (fresh_uart_channel 0) 10 [65]) 20 [66])).2.1)
    30 [67]

/-- C1 counterexample: in the trace of `C1_trace_channel` the second
successfully enqueued record carries sequence 2, not 1: the dropped push in
between consumed a sequence number, refuting the claim that a failed push
does not consume one (and that the n-th successfully enqueued record
carries sequence n-1). -/
theorem C1_counterexample :
    C1_trace_channel.stats.total_packets = 2 ∧
    C1_trace_channel.stats.dropped_packets = 1 ∧
    (C1_trace_channel.ring_buffer.map (fun p => p.sequence)) = [2] ∧
    (2 : Nat) ≠ 1 := by
  refine ⟨rfl, rfl, rfl, by decide⟩

/-- C1 amended: for BOTH producer kinds the sequence counter advances by
exactly 1 per record CREATED — one per nonempty UART read
(`uart_task`'s push attempt) and one per successful raw+voltage ADC read
pair (`adc_sampling_task`'s send attempt) — whether or not the enqueue
succeeds: a push/send that fails because the buffer or queue is full still
consumes a sequence number.  Consequently
`total_packets + dropped_packets = sequence_number` (UART) and
`total_samples + dropped_samples = sequence_number` (ADC) hold for each
producer's whole lifetime (they hold at producer start and are preserved
by every task iteration, every pop, and ADC read failures), and a
successfully enqueued record carries the sequence number of its creation,
`sequence_number` as of just before the read. -/
theorem C1_sequence_per_attempt (C : Nat) (ch : uart_channel_context_t)
    (now : Nat) (bytes : List Nat) (hne : bytes ≠ [])
    (config : system_config_t) (Q : Nat) (ach : adc_channel_context_t)
    (queue : List adc_data_packet_t) (ts : Nat) (raw : Int) (volt : ℚ) :
    (uart_task_step C ch now bytes).sequence_number = ch.sequence_number + 1 ∧
    (ch.ring_buffer.length < C →
      (uart_task_step C ch now bytes).ring_buffer =
        ch.ring_buffer ++
          [{ timestamp_us := now, port := ch.port, length := bytes.length,
             sequence := ch.sequence_number, data := bytes }]) ∧
    (uart_counts_inv ch → uart_counts_inv (uart_task_step C ch now bytes)) ∧
    (uart_counts_inv ch → uart_counts_inv (uart_channel_receive ch).2.1) ∧
    (∀ p, uart_counts_inv (fresh_uart_channel p)) ∧
    (adc_sample_channel config Q ach queue ts (some raw) (some volt)).1.sequence_number =
      ach.sequence_number + 1 ∧
    (∀ raw_read volt_read, adc_counts_inv ach →
      adc_counts_inv (adc_sample_channel config Q ach queue ts raw_read volt_read).1) ∧
    (∀ p, adc_counts_inv (fresh_adc_channel p)) := by
  have hlen : bytes.length ≠ 0 := fun h => hne (List.length_eq_zero.mp h)
  obtain ⟨hmseq, hmstats⟩ := apply_moving_average_frame config ach volt
  refine ⟨?_, ?_, ?_, ?_, ?_, ?_, ?_, ?_⟩
  · rw [uart_task_step, if_neg hlen]
    by_cases hfull : C ≤ ch.ring_buffer.length
    · rw [if_pos hfull]
    · rw [if_neg hfull]
  · intro hroom
    rw [uart_task_step, if_neg hlen, if_neg (Nat.not_le.mpr hroom)]
  · intro hinv
    rw [uart_counts_inv] at hinv ⊢
    rw [uart_task_step, if_neg hlen]
    by_cases hfull : C ≤ ch.ring_buffer.length
    · rw [if_pos hfull]
      simp only
      omega
    · rw [if_neg hfull]
      simp only
      omega
  · intro hinv
    rw [uart_counts_inv] at hinv ⊢
    rw [uart_channel_receive]
    by_cases hbad : ch.active = false ∨ ch.has_ring_buffer = false
    · rw [if_pos hbad]
      exact hinv
    · rw [if_neg hbad]
      match hrb : ch.ring_buffer with
      | [] => exact hinv
      | p :: rest => exact hinv
  · intro p
    rfl
  · simp only [adc_sample_channel]
    by_cases hq : Q ≤ queue.length
    · rw [if_pos hq]
      simp only
      rw [hmseq]
    · rw [if_neg hq]
      simp only
      rw [hmseq]
  · intro raw_read volt_read hinv
    rw [adc_counts_inv] at hinv ⊢
    match raw_read with
    | none => exact hinv
    | some raw2 =>
      match volt_read with
      | none => exact hinv
      | some volt2 =>
        obtain ⟨hmseq2, hmstats2⟩ := apply_moving_average_frame config ach volt2
        simp only [adc_sample_channel]
        by_cases hq : Q ≤ queue.length
        · rw [if_pos hq]
          simp only
          rw [hmseq2, hmstats2]
          omega
        · rw [if_neg hq]
          simp only [adc_stats_on_send]
          rw [hmseq2, hmstats2]
          omega
  · intro p
    rfl

/-- Witness for C1's amended claim: a concrete UART channel and read, and a
concrete ADC channel with a successful read pair. -/
theorem C1_sequence_per_attempt_witness :
    ([65] : List Nat) ≠ [] ∧
    (uart_task_step 4 (fresh_uart_channel 0) 10 [65]).sequence_number =
      (fresh_uart_channel 0).sequence_number + 1 ∧
    (adc_sample_channel adc_half_alpha_config ADC_QUEUE_SIZE
        (fresh_adc_channel 0) [] 5 (some 100) (some 2)).1.sequence_number =
      (fresh_adc_channel 0).sequence_number + 1 :=
  ⟨by decide,
   (C1_sequence_per_attempt 4 (fresh_uart_channel 0) 10 [65] (by decide)
      adc_half_alpha_config ADC_QUEUE_SIZE (fresh_adc_channel 0) [] 5 100 2).1,
   (C1_sequence_per_attempt 4 (fresh_uart_channel 0) 10 [65] (by decide)
      adc_half_alpha_config ADC_QUEUE_SIZE (fresh_adc_channel 0) [] 5 100 2).2.2.2.2.2.1⟩

/-- The packets `uart_task` builds for the reads in a list of
(read time, bytes) pairs, starting at sequence `s0`: the k-th read becomes a
packet stamped with its read time, carrying sequence `s0 + k`. -/
def mk_packets (port s0 : Nat) : List (Nat × List Nat) → List uart_data_packet_t
  | [] => []
  | (t, bs) :: rest =>
    { timestamp_us := t, port := port, length := bs.length,
      sequence := s0, data := bs } :: mk_packets port (s0 + 1) rest

/-- Iterate the `uart_task` loop body over a list of (read time, bytes)
reads, in order. -/
def push_all (C : Nat) (ch : uart_channel_context_t) :
    List (Nat × List Nat) → uart_channel_context_t
  | [] => ch
  | (t, bs) :: rest => push_all C (uart_task_step C ch t bs) rest

/-- Pop `n` packets through the `uart_manager_get_data` receive path,
collecting them in retrieval order. -/
def pop_n : Nat → uart_channel_context_t → List uart_data_packet_t
  | 0, _ => []
  | n + 1, ch =>
    match uart_channel_receive ch with
    | (.ESP_OK, ch2, some p) => p :: pop_n n ch2
    | _ => []

theorem mk_packets_length (port s0 : Nat) (reads : List (Nat × List Nat)) :
    (mk_packets port s0 reads).length = reads.length := by
  induction reads generalizing s0 with
  | nil => rfl
  | cons r rest ih =>
    obtain ⟨t, bs⟩ := r
    simp [mk_packets, ih]

theorem push_all_append (C : Nat) (l1 l2 : List (Nat × List Nat)) :
    ∀ ch, push_all C ch (l1 ++ l2) = push_all C (push_all C ch l1) l2 := by
  induction l1 with
  | nil => intro ch; rfl
  | cons r rest ih =>
    obtain ⟨t, bs⟩ := r
    intro ch
    exact ih (uart_task_step C ch t bs)

/-- Pushing a batch of nonempty reads that fits in the remaining ring-buffer
room succeeds for every read: the packets are appended in order with
consecutive sequence numbers, `total_packets` grows by the batch size,
`dropped_packets` is unchanged, and port/active/ring-buffer-presence are
preserved. -/
theorem push_all_no_drop (C : Nat) (reads : List (Nat × List Nat)) :
    ∀ ch : uart_channel_context_t,
    ch.ring_buffer.length + reads.length ≤ C →
    (∀ r ∈ reads, r.2 ≠ []) →
    (push_all C ch reads).ring_buffer =
        ch.ring_buffer ++ mk_packets ch.port ch.sequence_number reads ∧
    (push_all C ch reads).sequence_number = ch.sequence_number + reads.length ∧
    (push_all C ch reads).stats.total_packets =
        ch.stats.total_packets + reads.length ∧
    (push_all C ch reads).stats.dropped_packets = ch.stats.dropped_packets ∧
    (push_all C ch reads).port = ch.port ∧
    (push_all C ch reads).active = ch.active ∧
    (push_all C ch reads).has_ring_buffer = ch.has_ring_buffer := by
  induction reads with
  | nil =>
    intro ch _ _
    refine ⟨?_, rfl, rfl, rfl, rfl, rfl, rfl⟩
    rw [mk_packets, List.append_nil]
    rfl
  | cons r rest ih =>
    obtain ⟨t, bs⟩ := r
    intro ch hroom hne
    have hbs : bs ≠ [] := hne (t, bs) (List.mem_cons_self _ _)
    have hbslen : bs.length ≠ 0 := fun h => hbs (List.length_eq_zero.mp h)
    have hroom1 : ch.ring_buffer.length < C := by
      rw [List.length_cons] at hroom; omega
    have hstep :
        (uart_task_step C ch t bs).ring_buffer = ch.ring_buffer ++
          [{ timestamp_us := t, port := ch.port, length := bs.length,
             sequence := ch.sequence_number, data := bs }] ∧
        (uart_task_step C ch t bs).sequence_number = ch.sequence_number + 1 ∧
        (uart_task_step C ch t bs).stats.total_packets =
          ch.stats.total_packets + 1 ∧
        (uart_task_step C ch t bs).stats.dropped_packets =
          ch.stats.dropped_packets ∧
        (uart_task_step C ch t bs).port = ch.port ∧
        (uart_task_step C ch t bs).active = ch.active ∧
        (uart_task_step C ch t bs).has_ring_buffer = ch.has_ring_buffer := by
      rw [uart_task_step, if_neg hbslen]
      rw [if_neg (Nat.not_le.mpr hroom1)]
      exact ⟨rfl, rfl, rfl, rfl, rfl, rfl, rfl⟩
    obtain ⟨hb, hs, htp, hdp, hp, hac, hrb⟩ := hstep
    have hroom2 : (uart_task_step C ch t bs).ring_buffer.length + rest.length ≤ C := by
      rw [List.length_cons] at hroom
      rw [hb, List.length_append]
      simp only [List.length_cons, List.length_nil]
      omega
    have hne2 : ∀ r ∈ rest, r.2 ≠ [] := fun r hr => hne r (List.mem_cons_of_mem _ hr)
    obtain ⟨ib, is, itp, idp, ip, iac, irb⟩ := ih (uart_task_step C ch t bs) hroom2 hne2
    have hpush : push_all C ch ((t, bs) :: rest) =
        push_all C (uart_task_step C ch t bs) rest := rfl
    rw [hpush]
    refine ⟨?_, ?_, ?_, ?_, ?_, ?_, ?_⟩
    · rw [ib, hb, hp, hs, List.append_assoc]
      rw [mk_packets]
      rfl
    · rw [is, hs, List.length_cons]; omega
    · rw [itp, htp, List.length_cons]; omega
    · rw [idp, hdp]
    · rw [ip, hp]
    · rw [iac, hac]
    · rw [irb, hrb]

/-- The C + 1 = 3 reads of the C5 failing input, for capacity C = 2. -/
def C5_reads : List (Nat × List Nat) := [(10, [65]), (20, [66]), (30, [67])]

/-- C5: the claim's drop-accounting half holds (pushing C + 1 = 3 records
into a capacity-2 ring buffer yields exactly one drop,
`dropped_packets = 1`, `total_packets = 2`, with both buffered packets
present in push order), but its retrievability half fails on the code: the
buffer is a `RINGBUF_TYPE_BYTEBUF`, so the first `uart_manager_get_data`
receives the whole contiguous run, keeps only the first packet and frees
the rest — of the 2 successfully buffered records only 1 comes back
through the pop API, refuting "all C successfully buffered records remain
retrievable".  This theorem evaluates the code at that failing input. -/
theorem C5_bytebuf_loses_records :
    (push_all 2 (fresh_uart_channel 0) C5_reads).stats.dropped_packets = 1 ∧
    (push_all 2 (fresh_uart_channel 0) C5_reads).stats.total_packets = 2 ∧
    (push_all 2 (fresh_uart_channel 0) C5_reads).ring_buffer =
      mk_packets 0 0 (C5_reads.take 2) ∧
    (mk_packets 0 0 (C5_reads.take 2)).length = 2 ∧
    pop_n 2 (push_all 2 (fresh_uart_channel 0) C5_reads) =
      [{ timestamp_us := 10, port := 0, length := 1, sequence := 0, data := [65] }] ∧
    ([{ timestamp_us := 10, port := 0, length := 1, sequence := 0,
        data := [65] }] : List uart_data_packet_t).length ≠ 2 := by
  refine ⟨rfl, rfl, rfl, rfl, rfl, by decide⟩

/-- Two file slots never hold the same data kind active at the same time. -/
def kinds_distinct (f g : log_file_t) : Prop :=
  ¬(f.active = true ∧ g.active = true ∧ f.data_type = g.data_type)

/-- At most one active log file per data kind, stated pairwise over the
writer's file slots. -/
def files_inv (files : List log_file_t) : Prop :=
  files.Pairwise kinds_distinct

theorem kinds_distinct_symm {f g : log_file_t} (h : kinds_distinct f g) :
    kinds_distinct g f :=
  fun hc => h ⟨hc.2.1, hc.1, hc.2.2.symm⟩

theorem update_first_eq_some {α β : Type} (p : α → Bool) (g : α → β × α) :
    ∀ (l : List α) (b : β) (l2 : List α),
    update_first p g l = some (b, l2) →
    ∃ pre x post, l = pre ++ x :: post ∧ p x = true ∧
      (∀ y ∈ pre, p y = false) ∧ b = (g x).1 ∧ l2 = pre ++ (g x).2 :: post := by
  intro l
  induction l with
  | nil => intro b l2 h; exact Option.noConfusion h
  | cons x xs ih =>
    intro b l2 h
    rw [update_first] at h
    cases hp : p x with
    | true =>
      rw [if_pos hp] at h
      obtain ⟨hb, hl⟩ := Prod.mk.injEq .. ▸ Option.some.inj h
      exact ⟨[], x, xs, rfl, hp, fun y hy => absurd hy (List.not_mem_nil y),
             hb.symm, hl.symm⟩
    | false =>
      rw [if_neg (by rw [hp]; exact Bool.noConfusion)] at h
      match hm : update_first p g xs with
      | none => rw [hm] at h; exact Option.noConfusion h
      | some (b0, l0) =>
        rw [hm] at h
        have h2 := Option.some.inj h
        have hb2 : b0 = b := congrArg Prod.fst h2
        have hl2 : x :: l0 = l2 := congrArg Prod.snd h2
        obtain ⟨pre, x0, post, he, hpx, hpre, hb, hl⟩ := ih b0 l0 hm
        refine ⟨x :: pre, x0, post, by rw [he]; rfl, hpx, ?_, ?_, ?_⟩
        · intro y hy
          rcases List.mem_cons.mp hy with rfl | hy
          · exact hp
          · exact hpre y hy
        · rw [← hb2, hb]
        · rw [← hl2, hl]
          rfl

theorem update_first_app {α β : Type} (p : α → Bool) (g : α → β × α)
    (pre : List α) (x : α) (post : List α)
    (hpre : ∀ y ∈ pre, p y = false) (hx : p x = true) :
    update_first p g (pre ++ x :: post) =
      some ((g x).1, pre ++ (g x).2 :: post) := by
  induction pre with
  | nil =>
    rw [List.nil_append, List.nil_append, update_first, if_pos hx]
  | cons y ys ih =>
    have hy : p y = false := hpre y (List.mem_cons_self _ _)
    rw [List.cons_append, update_first,
        if_neg (by rw [hy]; exact Bool.noConfusion),
        ih (fun z hz => hpre z (List.mem_cons_of_mem _ hz))]
    rfl

theorem update_first_eq_none {α β : Type} (p : α → Bool) (g : α → β × α) :
    ∀ l : List α, (∀ y ∈ l, p y = false) → update_first p g l = none := by
  intro l
  induction l with
  | nil => intro _; rfl
  | cons x xs ih =>
    intro h
    rw [update_first,
        if_neg (by rw [h x (List.mem_cons_self _ _)]; exact Bool.noConfusion),
        ih (fun y hy => h y (List.mem_cons_of_mem _ hy))]
    rfl

theorem none_of_update_first {α β : Type} (p : α → Bool) (g : α → β × α) :
    ∀ l : List α, update_first p g l = none → ∀ y ∈ l, p y = false := by
  intro l
  induction l with
  | nil => intro _ y hy; exact absurd hy (List.not_mem_nil y)
  | cons x xs ih =>
    intro h y hy
    rw [update_first] at h
    cases hp : p x with
    | true => rw [if_pos hp] at h; exact Option.noConfusion h
    | false =>
      rw [if_neg (by rw [hp]; exact Bool.noConfusion)] at h
      rcases List.mem_cons.mp hy with rfl | hy2
      · exact hp
      · match hm : update_first p g xs with
        | some r => rw [hm] at h; exact Option.noConfusion h
        | none => exact ih hm y hy2

theorem files_inv_middle (pre post : List log_file_t) (x : log_file_t) :
    files_inv (pre ++ x :: post) ↔
      files_inv (pre ++ post) ∧ (∀ y ∈ pre, kinds_distinct y x) ∧
      (∀ y ∈ post, kinds_distinct x y) := by
  rw [files_inv, files_inv, List.pairwise_append, List.pairwise_append,
      List.pairwise_cons]
  constructor
  · rintro ⟨h1, ⟨h2, h3⟩, h4⟩
    exact ⟨⟨h1, h3, fun a ha b hb => h4 a ha b (List.mem_cons_of_mem _ hb)⟩,
           fun y hy => h4 y hy x (List.mem_cons_self _ _), h2⟩
  · rintro ⟨⟨h1, h3, h4⟩, h5, h2⟩
    refine ⟨h1, ⟨h2, h3⟩, ?_⟩
    intro a ha b hb
    rcases List.mem_cons.mp hb with rfl | hb
    · exact h5 a ha
    · exact h4 a ha b hb

/-- After the write-then-rotation-check step, the slot is either closed
(rotation happened) or keeps its previous `active` flag and data type. -/
theorem write_and_rotate_cases (maxBytes : Nat) (packet : data_packet_t)
    (f : log_file_t) :
    (write_and_rotate maxBytes packet f).2.active = false ∨
    ((write_and_rotate maxBytes packet f).2.active = f.active ∧
     (write_and_rotate maxBytes packet f).2.data_type = f.data_type) := by
  rw [write_and_rotate]
  by_cases h : maxBytes ≤ (write_data_packet f packet).2.current_size
  · rw [if_pos h]; exact Or.inl rfl
  · rw [if_neg h]
    right
    rw [write_data_packet]
    by_cases hh : f.has_handle = false
    · rw [if_pos hh]; exact ⟨rfl, rfl⟩
    · rw [if_neg hh]; exact ⟨rfl, rfl⟩

theorem apply_write_result_files (s : storage_manager_state_t)
    (ret : esp_err_t) (files2 : List log_file_t) :
    (apply_write_result s ret files2).current_files = files2 := by
  rw [apply_write_result]
  by_cases h : ret = esp_err_t.ESP_OK
  · rw [if_pos h]
  · rw [if_neg h]

/-- `storage_process_request` preserves the one-active-file-per-kind
invariant. -/
theorem storage_inv_step (maxBytes : Nat) (s : storage_manager_state_t)
    (req : storage_write_request_t) (now : Nat)
    (hinv : files_inv s.current_files) :
    files_inv (storage_process_request maxBytes s req now).current_files := by
  rcases h1 : update_first (fun f => f.active && f.data_type == req.packet.data_type)
      (fun f => write_and_rotate maxBytes req.packet f) s.current_files with _ | ⟨ret, files2⟩
  · rcases h2 : update_first (fun f => !f.active)
        (fun slot => write_and_rotate maxBytes req.packet
          (create_log_file req.packet.data_type now slot)) s.current_files with _ | ⟨ret2, files3⟩
    · simp only [storage_process_request, h1, h2]
      exact hinv
    · simp only [storage_process_request, h1, h2, apply_write_result_files]
      have hnone := none_of_update_first _ _ _ h1
      obtain ⟨pre, slot, post, he, hpslot, hpre, hb, hl⟩ :=
        update_first_eq_some _ _ _ _ _ h2
      rw [hl]
      rw [he] at hinv
      rw [files_inv_middle] at hinv ⊢
      obtain ⟨hstruct, _, _⟩ := hinv
      have hother : ∀ y ∈ s.current_files,
          ¬(y.active = true ∧ y.data_type = req.packet.data_type) := by
        intro y hy hc
        have hf := hnone y hy
        rw [hc.1, Bool.true_and] at hf
        rw [beq_eq_false_iff_ne] at hf
        exact hf hc.2
      have hcreate_act : (create_log_file req.packet.data_type now slot).active = true := rfl
      have hcreate_ty : (create_log_file req.packet.data_type now slot).data_type =
          req.packet.data_type := rfl
      have hnew := write_and_rotate_cases maxBytes req.packet
        (create_log_file req.packet.data_type now slot)
      refine ⟨hstruct, ?_, ?_⟩
      · intro y hy hc
        rcases hnew with hna | ⟨hna, hnt⟩
        · rw [hna] at hc; exact Bool.noConfusion hc.2.1
        · refine hother y (by rw [he]; exact List.mem_append_left _ hy) ⟨hc.1, ?_⟩
          rw [hc.2.2, hnt, hcreate_ty]
      · intro y hy hc
        rcases hnew with hna | ⟨hna, hnt⟩
        · rw [hna] at hc; exact Bool.noConfusion hc.1
        · refine hother y
            (by rw [he]; exact List.mem_append_right _ (List.mem_cons_of_mem _ hy)) ⟨hc.2.1, ?_⟩
          rw [← hc.2.2, hnt, hcreate_ty]
  · simp only [storage_process_request, h1, apply_write_result_files]
    obtain ⟨pre, x, post, he, hpx, hpre, hb, hl⟩ :=
      update_first_eq_some _ _ _ _ _ h1
    rw [hl]
    rw [he] at hinv
    rw [files_inv_middle] at hinv ⊢
    obtain ⟨hstruct, hpre2, hpost2⟩ := hinv
    have hnew := write_and_rotate_cases maxBytes req.packet x
    refine ⟨hstruct, ?_, ?_⟩
    · intro y hy hc
      rcases hnew with hna | ⟨hna, hnt⟩
      · rw [hna] at hc; exact Bool.noConfusion hc.2.1
      · exact hpre2 y hy ⟨hc.1, by rw [← hna]; exact hc.2.1, by rw [← hnt]; exact hc.2.2⟩
    · intro y hy hc
      rcases hnew with hna | ⟨hna, hnt⟩
      · rw [hna] at hc; exact Bool.noConfusion hc.1
      · exact hpost2 y hy ⟨by rw [← hna]; exact hc.1, hc.2.1, by rw [← hnt]; exact hc.2.2⟩

/-- C4: for every data kind, at most one log file is active at any time
(true at `storage_manager_init` and preserved by every processed write
request); when a write makes the active file of the request's kind reach
the configured maximum size, exactly one rotation occurs — that file alone
is closed (handle released, active flag cleared) and all other slots are
untouched; and the next write request for that kind creates a new file
whose byte size and record count start at 0 (holding exactly the one new
record, size `sizeof(data_packet_t)`, count 1, after that write). -/
theorem C4_file_rotation (maxBytes : Nat) (s : storage_manager_state_t)
    (req : storage_write_request_t) (now : Nat) :
    files_inv storage_manager_init_state.current_files ∧
    (files_inv s.current_files →
      files_inv (storage_process_request maxBytes s req now).current_files) ∧
    (∀ pre x post, s.current_files = pre ++ x :: post →
      (∀ y ∈ pre, ¬(y.active = true ∧ y.data_type = req.packet.data_type)) →
      x.active = true → x.data_type = req.packet.data_type →
      x.has_handle = true →
      maxBytes ≤ x.current_size + sizeof_data_packet →
      (storage_process_request maxBytes s req now).current_files =
        pre ++ close_log_file (write_data_packet x req.packet).2 :: post ∧
      (close_log_file (write_data_packet x req.packet).2).active = false ∧
      (close_log_file (write_data_packet x req.packet).2).has_handle = false) ∧
    (∀ pre slot post, s.current_files = pre ++ slot :: post →
      (∀ y ∈ s.current_files,
        ¬(y.active = true ∧ y.data_type = req.packet.data_type)) →
      (∀ y ∈ pre, y.active = true) → slot.active = false →
      sizeof_data_packet < maxBytes →
      (create_log_file req.packet.data_type now slot).current_size = 0 ∧
      (create_log_file req.packet.data_type now slot).record_count = 0 ∧
      (storage_process_request maxBytes s req now).current_files =
        pre ++ (write_data_packet
          (create_log_file req.packet.data_type now slot) req.packet).2 :: post ∧
      (write_data_packet (create_log_file req.packet.data_type now slot)
        req.packet).2.current_size = sizeof_data_packet ∧
      (write_data_packet (create_log_file req.packet.data_type now slot)
        req.packet).2.record_count = 1 ∧
      (write_data_packet (create_log_file req.packet.data_type now slot)
        req.packet).2.active = true) := by
  refine ⟨?_, storage_inv_step maxBytes s req now, ?_, ?_⟩
  · show files_inv (List.replicate STORAGE_MAX_FILES zero_log_file)
    have hrep : ∀ n, files_inv (List.replicate n zero_log_file) := by
      intro n
      induction n with
      | zero => exact List.Pairwise.nil
      | succ n ih =>
        rw [List.replicate_succ]
        exact List.Pairwise.cons (fun y _ hc => Bool.noConfusion hc.1) ih
    exact hrep STORAGE_MAX_FILES
  · intro pre x post he hpre hax hty hhand hthr
    have hpx : (x.active && x.data_type == req.packet.data_type) = true := by
      rw [hax, hty]
      simp
    have hpreb : ∀ y ∈ pre,
        (y.active && y.data_type == req.packet.data_type) = false := by
      intro y hy
      cases hya : y.active with
      | false => rw [Bool.false_and]
      | true =>
        rw [Bool.true_and, beq_eq_false_iff_ne]
        exact fun hdt => hpre y hy ⟨hya, hdt⟩
    have h1 : update_first (fun f => f.active && f.data_type == req.packet.data_type)
        (fun f => write_and_rotate maxBytes req.packet f) s.current_files =
        some ((write_and_rotate maxBytes req.packet x).1,
          pre ++ (write_and_rotate maxBytes req.packet x).2 :: post) := by
      rw [he]
      exact update_first_app _ _ pre x post hpreb hpx
    have hws : (write_data_packet x req.packet).2.current_size =
        x.current_size + sizeof_data_packet := by
      rw [write_data_packet,
          if_neg (fun hc => Bool.noConfusion (hhand ▸ hc))]
    have hwr : write_and_rotate maxBytes req.packet x =
        ((write_data_packet x req.packet).1,
         close_log_file (write_data_packet x req.packet).2) := by
      rw [write_and_rotate, if_pos (by rw [hws]; exact hthr)]
    refine ⟨?_, rfl, rfl⟩
    simp only [storage_process_request, h1, apply_write_result_files, hwr]
  · intro pre slot post he hnoact hpreact hslot hmax
    have h1 : update_first (fun f => f.active && f.data_type == req.packet.data_type)
        (fun f => write_and_rotate maxBytes req.packet f) s.current_files = none := by
      apply update_first_eq_none
      intro y hy
      cases hya : y.active with
      | false => rw [Bool.false_and]
      | true =>
        rw [Bool.true_and, beq_eq_false_iff_ne]
        exact fun hdt => hnoact y hy ⟨hya, hdt⟩
    have hpreb : ∀ y ∈ pre, (!y.active) = false := by
      intro y hy
      rw [hpreact y hy]
      rfl
    have hslotb : (!slot.active) = true := by
      rw [hslot]
      rfl
    have h2 : update_first (fun f => !f.active)
        (fun sl => write_and_rotate maxBytes req.packet
          (create_log_file req.packet.data_type now sl)) s.current_files =
        some ((write_and_rotate maxBytes req.packet
            (create_log_file req.packet.data_type now slot)).1,
          pre ++ (write_and_rotate maxBytes req.packet
            (create_log_file req.packet.data_type now slot)).2 :: post) := by
      rw [he]
      exact update_first_app _ _ pre slot post hpreb hslotb
    have hch : ¬((create_log_file req.packet.data_type now slot).has_handle = false) :=
      fun hc => Bool.noConfusion hc
    have hws : (write_data_packet (create_log_file req.packet.data_type now slot)
        req.packet).2.current_size = sizeof_data_packet := by
      rw [write_data_packet, if_neg hch]
      show 0 + sizeof_data_packet = sizeof_data_packet
      omega
    have hwr : write_and_rotate maxBytes req.packet
        (create_log_file req.packet.data_type now slot) =
        write_data_packet (create_log_file req.packet.data_type now slot)
          req.packet := by
      rw [write_and_rotate, if_neg (by rw [hws]; exact Nat.not_le.mpr hmax)]
    refine ⟨rfl, rfl, ?_, hws, ?_, ?_⟩
    · simp only [storage_process_request, h1, h2, apply_write_result_files, hwr]
    · rw [write_data_packet, if_neg hch]
      rfl
    · rw [write_data_packet, if_neg hch]
      rfl

/-- The active UART-kind log file used by the C4 witness: a slot 10 bytes
short of nothing — its running size is 10, so writing one more 17-byte
header crosses a 20-byte rotation threshold. -/
def rotation_file : log_file_t :=
  { filename := (DATA_TYPE_UART, 0), has_handle := true, contents := [],
    active := true, data_type := DATA_TYPE_UART, current_size := 10,
    record_count := 3, creation_time := 0 }

/-- A running storage state whose only slot holds `rotation_file`. -/
def rotation_state : storage_manager_state_t :=
  { running_storage_state with current_files := [rotation_file] }

/-- The write request used by the C4 witness (a UART-kind header-only
packet, as the producers enqueue them). -/
def rotation_request : storage_write_request_t :=
  { packet := { hello_packet with data := [] },
    priority := STORAGE_DEFAULT_PRIORITY }

/-- Witness for C4: with a 20-byte threshold, writing one request to the
active UART file of size 10 rotates exactly that file. -/
theorem C4_file_rotation_witness :
    (rotation_state.current_files = [] ++ rotation_file :: [] ∧
     rotation_file.active = true ∧
     rotation_file.data_type = rotation_request.packet.data_type ∧
     rotation_file.has_handle = true ∧
     20 ≤ rotation_file.current_size + sizeof_data_packet) ∧
    ((storage_process_request 20 rotation_state rotation_request 0).current_files =
      [] ++ close_log_file (write_data_packet rotation_file rotation_request.packet).2 :: [] ∧
     (close_log_file (write_data_packet rotation_file rotation_request.packet).2).active = false ∧
     (close_log_file (write_data_packet rotation_file rotation_request.packet).2).has_handle = false) :=
  ⟨⟨rfl, rfl, rfl, rfl, by decide⟩,
   (C4_file_rotation 20 rotation_state rotation_request 0).2.2.1 [] rotation_file []
     rfl (fun y hy => absurd hy (List.not_mem_nil y)) rfl rfl rfl (by decide)⟩

/-- Witness for C10: port 0 with a valid pointer on the freshly initialized
manager. -/
theorem C10_get_stats_frame_witness :
    ((0 : Nat) < CONFIG_UART_PORT_COUNT ∧ true = true) ∧
    uart_manager_get_stats uart_manager_init_state 0 true =
      (.ESP_OK, uart_manager_init_state,
       some ((uart_manager_init_state.channels.getD 0 (fresh_uart_channel 0)).stats)) :=
  ⟨⟨by decide, rfl⟩,
   (C10_get_stats_frame uart_manager_init_state 0 true).1 (by decide) rfl⟩

end DataLogger
